import Mathlib

/-
Shallow embedding of the productivity-tracker agent (src/main.py).
Python dictionaries are modelled as association lists over String keys,
preserving insertion order (new keys are appended at the end, as CPython
dicts do); numeric seconds are modelled as Int.
-/

namespace KeyLogger

/-- Lookup in an association list (Python `d[k]` / `k in d`). -/
def lookupA {V : Type} : List (String × V) → String → Option V
  | [], _ => none
  | (k', v) :: rest, k => if k' = k then some v else lookupA rest k

/-- Assignment `d[k] = v`: overwrite in place if present, else append. -/
def setA {V : Type} : List (String × V) → String → V → List (String × V)
  | [], k, v => [(k, v)]
  | (k', v') :: rest, k, v =>
      if k' = k then (k, v) :: rest else (k', v') :: setA rest k v

/-- Python `d.setdefault(k, v)`: insert only when the key is absent. -/
def setdefaultA {V : Type} (m : List (String × V)) (k : String) (v : V) :
    List (String × V) :=
  match lookupA m k with
  | some _ => m
  | none => m ++ [(k, v)]

/-- In-place update of an existing entry (Python `d[k] = f(d[k])`). -/
def modifyA {V : Type} : List (String × V) → String → (V → V) → List (String × V)
  | [], _, _ => []
  | (k', v) :: rest, k, f =>
      if k' = k then (k', f v) :: rest else (k', v) :: modifyA rest k f

/--
`ProductivityTracker.count_valid_keystrokes` (src/main.py:283-303).
The walk runs over indices 1..len-1; `last_key` starts as `None` (modelled
as `none`), `consecutive_count` starts at 1 and resets to 1 whenever the
current key differs from `last_key`; a step counts while the run length
stays at or below `max_idle`.  The key at index 0 is never examined.
-/
def cvkStep (max_idle : Nat) (st : Nat × Nat × Option String) (k : String) :
    Nat × Nat × Option String :=
  let consec := if some k = st.2.2 then st.2.1 + 1 else 1
  let valid := if consec ≤ max_idle then st.1 + 1 else st.1
  (valid, consec, some k)

def count_valid_keystrokes (keys : List String) (max_idle : Nat := 20) : Nat :=
  match keys with
  | [] => 0
  | _ :: rest => (rest.foldl (cvkStep max_idle) (0, 1, none)).1

/-- `IdleTimeLogger` state (src/main.py:107-111). -/
structure IdleTimeLogger where
  idle_threshold : Int
  total_idle_time : Int
  current_logged_time : Int
deriving Repr, DecidableEq

/--
`IdleTimeLogger.check_idle` (src/main.py:130-145), success path: the raw
idle reading comes from the platform query; at or above the threshold the
delta since `current_logged_time` is accumulated, below it the logged mark
resets to 0.
-/
def check_idle (st : IdleTimeLogger) (idle_time : Int) : IdleTimeLogger :=
  if st.idle_threshold ≤ idle_time then
    { st with
      total_idle_time := st.total_idle_time + (idle_time - st.current_logged_time),
      current_logged_time := idle_time }
  else
    { st with current_logged_time := 0 }

/-- Feed a list of raw idle readings to `check_idle`, collecting the value
returned (the accumulator `total_idle_time`) after each tick. -/
def check_idle_returns (st : IdleTimeLogger) (readings : List Int) : List Int :=
  (readings.foldl
    (fun acc r =>
      let st' := check_idle acc.1 r
      (st', acc.2 ++ [st'.total_idle_time]))
    (st, ([] : List Int))).2

/-- Per-domain counters kept by the browser sampler. -/
structure BStats where
  time_spent : Nat
  visits : Nat
deriving Repr, DecidableEq

/-- `date → domain → BStats`, the shape of both `browser_time` and
`browser_history` in `BrowserLogger`. -/
abbrev DateBMap := List (String × List (String × BStats))

/-- One browser-history entry `(timestamp, url, title)`; only the date part
of the timestamp and the url are consumed by `log_browser_activity`, so the
entry is modelled by those two fields. -/
structure HistoryEntry where
  date : String
  url : String
deriving Repr, DecidableEq

/-- Python `'//' in url` (src/main.py:66). -/
def hasDoubleSlash : List Char → Bool
  | c1 :: c2 :: rest => (c1 == '/' && c2 == '/') || hasDoubleSlash (c2 :: rest)
  | _ => false

/-- Python `url.split('/')`: split a character list on a separator, keeping
empty fields, so that `"".split` yields one empty field. -/
def splitOnChar (sep : Char) : List Char → List (List Char)
  | [] => [[]]
  | c :: rest =>
      let r := splitOnChar sep rest
      if c = sep then [] :: r
      else
        match r with
        | [] => [[c]]
        | g :: gs => (c :: g) :: gs

/-- `url.split('/')[2] if '//' in url else url` (src/main.py:66). -/
def extractDomain (url : String) : String :=
  if hasDoubleSlash url.data then
    String.mk ((splitOnChar '/' url.data).getD 2 [])
  else url

/-- `BrowserLogger` mutable state (src/main.py:28-32). -/
structure BrowserLogger where
  browser_time : DateBMap
  browser_history : DateBMap
deriving Repr, DecidableEq

/-- Body of the `for entry in history` loop of `log_browser_activity`
(src/main.py:58-80): bucket the entry into `browser_history[entry_date]`
and, when the entry is dated today, also into `browser_time[today]`,
incrementing `time_spent` and `visits` by one each. -/
def logEntry (today : String) (st : BrowserLogger) (e : HistoryEntry) :
    BrowserLogger :=
  let entry_date := e.date
  let bh := setdefaultA st.browser_history entry_date []
  let domain := extractDomain e.url
  let dayMap := (lookupA bh entry_date).getD []
  let dayMap := setdefaultA dayMap domain ⟨0, 0⟩
  let dayMap := modifyA dayMap domain
    (fun s => { s with time_spent := s.time_spent + 1, visits := s.visits + 1 })
  let bh := setA bh entry_date dayMap
  let bt :=
    if entry_date = today then
      let tMap := (lookupA st.browser_time today).getD []
      let tMap := setdefaultA tMap domain ⟨0, 0⟩
      let tMap := modifyA tMap domain
        (fun s => { s with time_spent := s.time_spent + 1, visits := s.visits + 1 })
      setA st.browser_time today tMap
    else st.browser_time
  { browser_time := bt, browser_history := bh }

/-- `BrowserLogger.log_browser_activity` (src/main.py:46-85): ensure
`browser_time[today]` exists, then fold the full history snapshot through
`logEntry`.  Note that `browser_time` is never cleared between calls. -/
def log_browser_activity (st : BrowserLogger) (history : List HistoryEntry)
    (today : String) : BrowserLogger :=
  let st :=
    if (lookupA st.browser_time today).isNone then
      { st with browser_time := setA st.browser_time today [] }
    else st
  history.foldl (logEntry today) st

/-- The `(time_spent, visits)` pair recorded by the browser sampler for a
given date and domain, 0 when absent. -/
def btCounts (bt : DateBMap) (date d : String) : Nat × Nat :=
  match lookupA ((lookupA bt date).getD []) d with
  | some s => (s.time_spent, s.visits)
  | none => (0, 0)

/-- Number of history entries dated `today` whose url resolves to domain
`d`. -/
def countMatches (history : List HistoryEntry) (today d : String) : Nat :=
  (history.filter (fun e => e.date = today ∧ extractDomain e.url = d)).length

/-- A `browser_activity` context entry of a day record
(src/main.py:319-324). -/
structure BrowserCtx where
  time_spent : Nat
  visits : Nat
  keys : List String
  total_key_strokes : Nat
deriving Repr, DecidableEq

/-- An `application_activity` context entry of a day record
(src/main.py:328-332); application entries carry no `visits` field. -/
structure AppCtx where
  time_spent : Nat
  keys : List String
  total_key_strokes : Nat
deriving Repr, DecidableEq

/-- One per-date activity record (src/main.py:311-315). -/
structure ActivityRecord where
  browser_activity : List (String × BrowserCtx)
  application_activity : List (String × AppCtx)
  idle_time : Int
deriving Repr, DecidableEq

/-- The persisted log store `{emp_id, day_logs, summary}`; `summary` is a
reserved map that the running code only ever leaves or resets to empty
(src/main.py:228, 246, 348-354), so its values are left abstract as Int. -/
structure LogStore where
  emp_id : Int
  day_logs : List (String × ActivityRecord)
  summary : List (String × Int)
deriving Repr, DecidableEq

/-- The empty record `setdefault` seeds for a fresh day
(src/main.py:311-315). -/
def emptyRecord : ActivityRecord :=
  { browser_activity := [], application_activity := [], idle_time := 0 }

/-- The empty store `{emp_id: -1, day_logs: {}, summary: {}}`
(src/main.py:228). -/
def emptyLogs : LogStore := { emp_id := -1, day_logs := [], summary := [] }

/-- The mutable state `aggregate_logs` reads and writes: the store plus the
three samplers' buffers and the idle accumulator. -/
structure TrackerState where
  logs : LogStore
  browser_time : DateBMap
  app_time : List (String × Nat)
  key_data : List (String × List String)
  total_idle_time : Int
deriving Repr, DecidableEq

/-- Step 2 of `aggregate_logs` (src/main.py:317-324): seed a
`browser_activity` entry for each domain of today's browser sample;
`setdefault` leaves already-present entries untouched. -/
def seedBrowser (bt : List (String × BStats)) (r : ActivityRecord) :
    ActivityRecord :=
  bt.foldl
    (fun r p =>
      { r with
        browser_activity := setdefaultA r.browser_activity p.1
          { time_spent := p.2.time_spent, visits := p.2.visits,
            keys := [], total_key_strokes := 0 } })
    r

/-- Step 3 of `aggregate_logs` (src/main.py:326-332): seed an
`application_activity` entry per sampled application; `setdefault` leaves
already-present entries untouched. -/
def seedApps (apps : List (String × Nat)) (r : ActivityRecord) :
    ActivityRecord :=
  apps.foldl
    (fun r p =>
      { r with
        application_activity := setdefaultA r.application_activity p.1
          { time_spent := p.2, keys := [], total_key_strokes := 0 } })
    r

/-- One context of step 4 of `aggregate_logs` (src/main.py:335-344): append
the drained keys to the matching context (browser first, then application)
and recompute `total_key_strokes` with the default `max_idle`; contexts in
neither map are dropped. -/
def foldKeysIntoRecord (r : ActivityRecord) (context : String)
    (ks : List String) : ActivityRecord :=
  match lookupA r.browser_activity context with
  | some bc =>
      let keys' := bc.keys ++ ks
      { r with
        browser_activity := setA r.browser_activity context
          { bc with keys := keys',
                    total_key_strokes := count_valid_keystrokes keys' } }
  | none =>
      match lookupA r.application_activity context with
      | some ac =>
          let keys' := ac.keys ++ ks
          { r with
            application_activity := setA r.application_activity context
              { ac with keys := keys',
                        total_key_strokes := count_valid_keystrokes keys' } }
      | none => r

/-- Step 4 over the whole pending-key buffer. -/
def drainAll (kd : List (String × List String)) (r : ActivityRecord) :
    ActivityRecord :=
  kd.foldl (fun r p => foldKeysIntoRecord r p.1 p.2) r

/-- `ProductivityTracker.aggregate_logs` (src/main.py:309-354): ensure
today's record, seed browser and application contexts, drain the key
buffer into the record, and overwrite `idle_time` with the idle
accumulator.  The key buffer's entries are all emptied in place. -/
def aggregate_logs (today : String) (st : TrackerState) : TrackerState :=
  let dl := setdefaultA st.logs.day_logs today emptyRecord
  let r0 := (lookupA dl today).getD emptyRecord
  let r1 := seedBrowser ((lookupA st.browser_time today).getD []) r0
  let r2 := seedApps st.app_time r1
  let r3 := drainAll st.key_data r2
  let r4 := { r3 with idle_time := st.total_idle_time }
  { st with
    logs := { st.logs with day_logs := setA dl today r4 },
    key_data := st.key_data.map (fun p => (p.1, ([] : List String))) }

/-- Today's record as the rest of the tracker reads it:
`logs["day_logs"].get(today, {})`. -/
def todayRec (st : TrackerState) (today : String) : ActivityRecord :=
  (lookupA st.logs.day_logs today).getD emptyRecord

/-- On-disk state of `productivity_logs.json` as `load_logs` observes it:
absent, or present with a line count and a parse outcome (`none` when the
content is not valid JSON for a `LogStore`). -/
inductive FileState where
  | absent
  | present (lineCount : Nat) (parsed : Option LogStore)
deriving Repr, DecidableEq

/-- Outcome of `ProductivityTracker.load_logs`: the in-memory logs plus the
`loaded` flag, or a propagated exception (`fatal`). -/
inductive LoadResult where
  | ok (logs : LogStore) (loaded : Bool)
  | fatal
deriving Repr, DecidableEq

/-- `ProductivityTracker.load_logs` (src/main.py:220-231).  An absent file
raises `FileNotFoundError`, which no handler catches; a file of more than
10 lines is parsed (`json.JSONDecodeError` is caught, logged and
re-raised, hence also fatal); a file of 10 or fewer lines is replaced by
the empty store with `loaded` left `False`. -/
def load_logs : FileState → LoadResult
  | .absent => .fatal
  | .present n parsed =>
      if n > 10 then
        match parsed with
        | some logs => .ok logs true
        | none => .fatal
      else .ok emptyLogs false

/-- `ProductivityTracker.reset_logs` (src/main.py:244-247), in-memory
effect: replace the store with an empty one carrying the given id
(default -1). -/
def reset_logs (id : Int := -1) : LogStore :=
  { emp_id := id, day_logs := [], summary := [] }

/-- `ProductivityTracker.verify_change_in_user_on_this_system_uuid`
(src/main.py:233-242): the verify endpoint's status code and the `emp_id`
of its JSON body decide whether the store is reset. -/
def verify_change_in_user (st : LogStore) (status : Nat) (resp_emp_id : Int) :
    LogStore :=
  if status ≠ 200 then reset_logs
  else if resp_emp_id ≠ st.emp_id then reset_logs resp_emp_id
  else st

/-- One `app_details` entry of the outbound payload: only
`total_key_strokes` survives the filtering (src/main.py:263-270). -/
structure AppDetail where
  total_key_strokes : Nat
deriving Repr, DecidableEq

/-- The outbound metrics payload `{uuid, date, app_details, idle_time}`
(src/main.py:271-276). -/
structure MetricsPayload where
  uuid : String
  date : String
  app_details : List (String × AppDetail)
  idle_time : Int
deriving Repr, DecidableEq

/-- Payload construction inside `save_logs` (src/main.py:260-277): when
today's record has a non-empty (truthy) `application_activity`, build the
filtered payload; otherwise nothing is transmitted. -/
def build_metrics_payload (uuid today : String) (logs : LogStore) :
    Option MetricsPayload :=
  match lookupA logs.day_logs today with
  | none => none
  | some r =>
      if r.application_activity = [] then none
      else
        some
          { uuid := uuid, date := today,
            app_details := r.application_activity.map
              (fun p => (p.1, { total_key_strokes := p.2.total_key_strokes })),
            idle_time := r.idle_time }

/-- `ProductivityTracker.__init__` idle seeding (src/main.py:184-189): the
idle accumulator starts at 0 (src/main.py:110) and is overwritten with the
stored record's `idle_time` when the store was loaded from disk and holds
a (truthy) record for today. -/
def tracker_init_idle_total (loaded : Bool) (logs : LogStore) (today : String) :
    Int :=
  if loaded then
    match lookupA logs.day_logs today with
    | some r => r.idle_time
    | none => 0
  else 0

/-- The invariant of §3 of the spec: in a day record, every context's
cached `total_key_strokes` is the noise filter of its `keys` (with the
default `max_idle`). -/
def recInvariant (r : ActivityRecord) : Prop :=
  (∀ p ∈ r.browser_activity,
      p.2.total_key_strokes = count_valid_keystrokes p.2.keys) ∧
  (∀ p ∈ r.application_activity,
      p.2.total_key_strokes = count_valid_keystrokes p.2.keys)

instance (r : ActivityRecord) : Decidable (recInvariant r) := by
  unfold recInvariant; infer_instance

theorem lookupA_setA_self {V : Type} (m : List (String × V)) (k : String)
    (v : V) : lookupA (setA m k v) k = some v := by
  induction m with
  | nil => simp [setA, lookupA]
  | cons p rest ih =>
      obtain ⟨k', v'⟩ := p
      by_cases h : k' = k
      · simp [setA, h, lookupA]
      · simp [setA, h, lookupA, ih]

theorem lookupA_setA_ne {V : Type} (m : List (String × V)) (k : String)
    (v : V) (kq : String) (h : kq ≠ k) :
    lookupA (setA m k v) kq = lookupA m kq := by
  induction m with
  | nil => simp [setA, lookupA, Ne.symm h]
  | cons p rest ih =>
      obtain ⟨k', v'⟩ := p
      by_cases hk : k' = k
      · subst hk
        simp [setA, lookupA, Ne.symm h]
      · simp only [setA, if_neg hk, lookupA]
        by_cases hq : k' = kq
        · simp [hq]
        · simp [hq, ih]

theorem lookupA_append_of_some {V : Type} {m : List (String × V)}
    {k : String} {v : V} (l : List (String × V)) (h : lookupA m k = some v) :
    lookupA (m ++ l) k = some v := by
  induction m with
  | nil => simp [lookupA] at h
  | cons p rest ih =>
      obtain ⟨k', v'⟩ := p
      by_cases hk : k' = k
      · simpa [lookupA, hk] using h
      · simp [lookupA, hk] at h ⊢
        exact ih h

theorem lookupA_append_of_none {V : Type} {m : List (String × V)}
    {k : String} (l : List (String × V)) (h : lookupA m k = none) :
    lookupA (m ++ l) k = lookupA l k := by
  induction m with
  | nil => simp
  | cons p rest ih =>
      obtain ⟨k', v'⟩ := p
      by_cases hk : k' = k
      · simp [lookupA, hk] at h
      · simp [lookupA, hk] at h ⊢
        exact ih h

theorem setdefaultA_of_some {V : Type} {m : List (String × V)} {k : String}
    {v : V} (w : V) (h : lookupA m k = some v) : setdefaultA m k w = m := by
  simp [setdefaultA, h]

theorem lookupA_setdefaultA_self {V : Type} (m : List (String × V))
    (k : String) (v : V) :
    lookupA (setdefaultA m k v) k = some ((lookupA m k).getD v) := by
  cases h : lookupA m k with
  | some w => simp [setdefaultA, h]
  | none =>
      simp only [setdefaultA, h, Option.getD_none]
      rw [lookupA_append_of_none _ h]
      simp [lookupA]

theorem lookupA_setdefaultA_of_some {V : Type} {m : List (String × V)}
    {kq : String} {v : V} (k : String) (w : V)
    (h : lookupA m kq = some v) :
    lookupA (setdefaultA m k w) kq = some v := by
  cases hk : lookupA m k with
  | some u => simp [setdefaultA, hk, h]
  | none =>
      simp only [setdefaultA, hk]
      exact lookupA_append_of_some _ h

theorem lookupA_setdefaultA_ne {V : Type} (m : List (String × V))
    (k : String) (v : V) (kq : String) (h : kq ≠ k) :
    lookupA (setdefaultA m k v) kq = lookupA m kq := by
  cases hk : lookupA m k with
  | some u => simp [setdefaultA, hk]
  | none =>
      simp only [setdefaultA, hk]
      cases hq : lookupA m kq with
      | some u => exact lookupA_append_of_some _ hq
      | none =>
          rw [lookupA_append_of_none _ hq]
          simp [lookupA, Ne.symm h]

theorem lookupA_modifyA {V : Type} (m : List (String × V)) (k : String)
    (f : V → V) (kq : String) :
    lookupA (modifyA m k f) kq =
      if kq = k then (lookupA m k).map f else lookupA m kq := by
  induction m with
  | nil => by_cases h : kq = k <;> simp [modifyA, lookupA, h]
  | cons p rest ih =>
      obtain ⟨k', v'⟩ := p
      by_cases hk : k' = k
      · subst hk
        by_cases hq : kq = k'
        · simp [modifyA, lookupA, hq]
        · simp [modifyA, lookupA, Ne.symm hq, hq]
      · by_cases hq : k' = kq
        · subst hq
          simp [modifyA, lookupA, hk, Ne.symm hk]
        · simp [modifyA, lookupA, hk, hq, ih]

theorem mem_setA {V : Type} {m : List (String × V)} {k : String} {v : V}
    {p : String × V} (h : p ∈ setA m k v) : p ∈ m ∨ p = (k, v) := by
  induction m with
  | nil => simpa [setA] using h
  | cons q rest ih =>
      obtain ⟨k', v'⟩ := q
      by_cases hk : k' = k
      · simp [setA, hk] at h
        rcases h with h | h
        · exact Or.inr (by simp [h])
        · exact Or.inl (by simp [h])
      · simp [setA, hk] at h
        rcases h with h | h
        · exact Or.inl (by simp [h])
        · rcases ih h with h' | h'
          · exact Or.inl (by simp [h'])
          · exact Or.inr h'

theorem mem_setdefaultA {V : Type} {m : List (String × V)} {k : String}
    {v : V} {p : String × V} (h : p ∈ setdefaultA m k v) :
    p ∈ m ∨ p = (k, v) := by
  cases hk : lookupA m k with
  | some u => simp [setdefaultA, hk] at h; exact Or.inl h
  | none =>
      simp [setdefaultA, hk] at h
      rcases h with h | h
      · exact Or.inl h
      · exact Or.inr (by simp [h])

theorem seedApps_browser (apps : List (String × Nat)) (r : ActivityRecord) :
    (seedApps apps r).browser_activity = r.browser_activity := by
  induction apps generalizing r with
  | nil => rfl
  | cons p rest ih => simp [seedApps, List.foldl] at ih ⊢; rw [ih]

theorem seedBrowser_app (bt : List (String × BStats)) (r : ActivityRecord) :
    (seedBrowser bt r).application_activity = r.application_activity := by
  induction bt generalizing r with
  | nil => rfl
  | cons p rest ih => simp [seedBrowser, List.foldl] at ih ⊢; rw [ih]

theorem foldKeys_browser_counts (r : ActivityRecord) (c : String)
    (ks : List String) (kq : String) :
    (lookupA (foldKeysIntoRecord r c ks).browser_activity kq).map
        (fun b => (b.time_spent, b.visits)) =
      (lookupA r.browser_activity kq).map (fun b => (b.time_spent, b.visits)) := by
  unfold foldKeysIntoRecord
  cases hb : lookupA r.browser_activity c with
  | some bc =>
      by_cases hq : kq = c
      · subst hq
        simp [lookupA_setA_self, hb]
      · simp [lookupA_setA_ne _ _ _ _ hq]
  | none =>
      cases ha : lookupA r.application_activity c with
      | some ac => rfl
      | none => rfl

theorem drainAll_browser_counts (kd : List (String × List String))
    (r : ActivityRecord) (kq : String) :
    (lookupA (drainAll kd r).browser_activity kq).map
        (fun b => (b.time_spent, b.visits)) =
      (lookupA r.browser_activity kq).map (fun b => (b.time_spent, b.visits)) := by
  induction kd generalizing r with
  | nil => rfl
  | cons p rest ih =>
      simp only [drainAll, List.foldl] at ih ⊢
      rw [ih, foldKeys_browser_counts]

theorem foldKeys_app_time (r : ActivityRecord) (c : String)
    (ks : List String) (kq : String) :
    (lookupA (foldKeysIntoRecord r c ks).application_activity kq).map
        AppCtx.time_spent =
      (lookupA r.application_activity kq).map AppCtx.time_spent := by
  unfold foldKeysIntoRecord
  cases hb : lookupA r.browser_activity c with
  | some bc => rfl
  | none =>
      cases ha : lookupA r.application_activity c with
      | some ac =>
          by_cases hq : kq = c
          · subst hq
            simp [lookupA_setA_self, ha]
          · simp [lookupA_setA_ne _ _ _ _ hq]
      | none => rfl

theorem drainAll_app_time (kd : List (String × List String))
    (r : ActivityRecord) (kq : String) :
    (lookupA (drainAll kd r).application_activity kq).map AppCtx.time_spent =
      (lookupA r.application_activity kq).map AppCtx.time_spent := by
  induction kd generalizing r with
  | nil => rfl
  | cons p rest ih =>
      simp only [drainAll, List.foldl] at ih ⊢
      rw [ih, foldKeys_app_time]

theorem seedBrowser_isSome_mono (bt : List (String × BStats))
    (r : ActivityRecord) (k : String)
    (h : (lookupA r.browser_activity k).isSome) :
    (lookupA (seedBrowser bt r).browser_activity k).isSome := by
  induction bt generalizing r with
  | nil => exact h
  | cons p rest ih =>
      simp only [seedBrowser, List.foldl] at ih ⊢
      apply ih
      obtain ⟨v, hv⟩ := Option.isSome_iff_exists.mp h
      simp [lookupA_setdefaultA_of_some _ _ hv]

theorem seedBrowser_isSome_of_mem (bt : List (String × BStats))
    (r : ActivityRecord) (k : String) (h : k ∈ bt.map Prod.fst) :
    (lookupA (seedBrowser bt r).browser_activity k).isSome := by
  induction bt generalizing r with
  | nil => simp at h
  | cons p rest ih =>
      simp only [List.map_cons, List.mem_cons] at h
      rcases h with h | h
      · subst h
        simp only [seedBrowser, List.foldl]
        apply seedBrowser_isSome_mono
        simp [lookupA_setdefaultA_self]
      · exact ih _ h

theorem seedBrowser_id_of_present (bt : List (String × BStats))
    (r : ActivityRecord)
    (h : ∀ p ∈ bt, (lookupA r.browser_activity p.1).isSome) :
    seedBrowser bt r = r := by
  induction bt generalizing r with
  | nil => rfl
  | cons p rest ih =>
      simp only [seedBrowser, List.foldl] at ih ⊢
      obtain ⟨v, hv⟩ := Option.isSome_iff_exists.mp (h p (by simp))
      rw [setdefaultA_of_some _ hv]
      exact ih r (fun q hq => h q (by simp [hq]))

theorem seedApps_lookup_of_some (apps : List (String × Nat))
    (r : ActivityRecord) (kq : String) (ac : AppCtx)
    (h : lookupA r.application_activity kq = some ac) :
    lookupA (seedApps apps r).application_activity kq = some ac := by
  induction apps generalizing r with
  | nil => exact h
  | cons p rest ih =>
      simp only [seedApps, List.foldl] at ih ⊢
      apply ih
      simp [lookupA_setdefaultA_of_some _ _ h]

theorem seedApps_seeds (apps : List (String × Nat)) (r : ActivityRecord)
    (kq : String) (n : Nat)
    (habs : lookupA r.application_activity kq = none)
    (h : lookupA apps kq = some n) :
    lookupA (seedApps apps r).application_activity kq =
      some { time_spent := n, keys := [], total_key_strokes := 0 } := by
  induction apps generalizing r with
  | nil => simp [lookupA] at h
  | cons p rest ih =>
      obtain ⟨k1, n1⟩ := p
      simp only [seedApps, List.foldl] at ih ⊢
      by_cases hk : k1 = kq
      · subst hk
        simp only [lookupA, if_pos rfl] at h
        obtain rfl : n1 = n := by injection h
        apply seedApps_lookup_of_some
        rw [lookupA_setdefaultA_self, habs]
        rfl
      · simp only [lookupA, if_neg hk] at h
        apply ih _ _ h
        rw [lookupA_setdefaultA_ne _ _ _ _ (Ne.symm hk)]
        exact habs

theorem todayRec_aggregate (today : String) (st : TrackerState) :
    todayRec (aggregate_logs today st) today =
      { drainAll st.key_data
          (seedApps st.app_time
            (seedBrowser ((lookupA st.browser_time today).getD [])
              (todayRec st today))) with
        idle_time := st.total_idle_time } := by
  simp [todayRec, aggregate_logs, lookupA_setA_self, lookupA_setdefaultA_self]

theorem aggregate_browser_time (today : String) (st : TrackerState) :
    (aggregate_logs today st).browser_time = st.browser_time := rfl

theorem aggregate_app_time (today : String) (st : TrackerState) :
    (aggregate_logs today st).app_time = st.app_time := rfl

theorem aggregate_key_data (today : String) (st : TrackerState) :
    (aggregate_logs today st).key_data =
      st.key_data.map (fun p => (p.1, ([] : List String))) := rfl

theorem isSome_of_map_eq {α β : Type} {f : α → β} {o o' : Option α}
    (h : o.map f = o'.map f) : o.isSome = o'.isSome := by
  cases o <;> cases o' <;> simp_all

theorem seedBrowser_invariant (bt : List (String × BStats))
    (r : ActivityRecord) (h : recInvariant r) :
    recInvariant (seedBrowser bt r) := by
  induction bt generalizing r with
  | nil => exact h
  | cons p rest ih =>
      simp only [seedBrowser, List.foldl] at ih ⊢
      apply ih
      constructor
      · intro q hq
        rcases mem_setdefaultA hq with hq' | hq'
        · exact h.1 q hq'
        · subst hq'
          rfl
      · intro q hq
        exact h.2 q hq

theorem seedApps_invariant (apps : List (String × Nat)) (r : ActivityRecord)
    (h : recInvariant r) : recInvariant (seedApps apps r) := by
  induction apps generalizing r with
  | nil => exact h
  | cons p rest ih =>
      simp only [seedApps, List.foldl] at ih ⊢
      apply ih
      constructor
      · intro q hq
        exact h.1 q hq
      · intro q hq
        rcases mem_setdefaultA hq with hq' | hq'
        · exact h.2 q hq'
        · subst hq'
          rfl

theorem foldKeys_invariant (r : ActivityRecord) (c : String)
    (ks : List String) (h : recInvariant r) :
    recInvariant (foldKeysIntoRecord r c ks) := by
  unfold foldKeysIntoRecord
  cases hb : lookupA r.browser_activity c with
  | some bc =>
      constructor
      · intro q hq
        rcases mem_setA hq with hq' | hq'
        · exact h.1 q hq'
        · subst hq'
          rfl
      · intro q hq
        exact h.2 q hq
  | none =>
      cases ha : lookupA r.application_activity c with
      | some ac =>
          constructor
          · intro q hq
            exact h.1 q hq
          · intro q hq
            rcases mem_setA hq with hq' | hq'
            · exact h.2 q hq'
            · subst hq'
              rfl
      | none => exact h

theorem drainAll_invariant (kd : List (String × List String))
    (r : ActivityRecord) (h : recInvariant r) :
    recInvariant (drainAll kd r) := by
  induction kd generalizing r with
  | nil => exact h
  | cons p rest ih =>
      simp only [drainAll, List.foldl] at ih ⊢
      exact ih _ (foldKeys_invariant _ _ _ h)

theorem logEntry_btCounts (today d : String) (st : BrowserLogger)
    (e : HistoryEntry) :
    btCounts (logEntry today st e).browser_time today d =
      if e.date = today ∧ extractDomain e.url = d then
        ((btCounts st.browser_time today d).1 + 1,
         (btCounts st.browser_time today d).2 + 1)
      else btCounts st.browser_time today d := by
  by_cases hd : e.date = today
  · by_cases hu : extractDomain e.url = d
    · rw [if_pos ⟨hd, hu⟩]
      simp only [logEntry, btCounts, hu]
      rw [if_pos hd, lookupA_setA_self]
      simp only [Option.getD_some]
      rw [lookupA_modifyA, if_pos rfl, lookupA_setdefaultA_self]
      cases hs : lookupA ((lookupA st.browser_time today).getD []) d <;>
        simp [hs]
    · rw [if_neg (by simp [hu])]
      simp only [logEntry, btCounts]
      rw [if_pos hd, lookupA_setA_self]
      simp only [Option.getD_some]
      rw [lookupA_modifyA, if_neg (Ne.symm hu),
        lookupA_setdefaultA_ne _ _ _ _ (Ne.symm hu)]
  · rw [if_neg (by simp [hd])]
    simp [logEntry, hd]

theorem foldl_logEntry_btCounts (history : List HistoryEntry)
    (today d : String) (st : BrowserLogger) :
    btCounts (history.foldl (logEntry today) st).browser_time today d =
      ((btCounts st.browser_time today d).1 + countMatches history today d,
       (btCounts st.browser_time today d).2 + countMatches history today d) := by
  induction history generalizing st with
  | nil => simp [countMatches]
  | cons e h ih =>
      simp only [List.foldl]
      rw [ih, logEntry_btCounts]
      by_cases hm : e.date = today ∧ extractDomain e.url = d
      · have hc : countMatches (e :: h) today d = countMatches h today d + 1 := by
          simp [countMatches, List.filter_cons, hm]
        rw [if_pos hm, hc]
        simp only [Prod.mk.injEq]
        refine ⟨by omega, by omega⟩
      · have hc : countMatches (e :: h) today d = countMatches h today d := by
          simp [countMatches, List.filter_cons, hm]
        rw [if_neg hm, hc]

theorem log_browser_activity_btCounts (st : BrowserLogger)
    (history : List HistoryEntry) (today d : String) :
    btCounts (log_browser_activity st history today).browser_time today d =
      ((btCounts st.browser_time today d).1 + countMatches history today d,
       (btCounts st.browser_time today d).2 + countMatches history today d) := by
  cases h0 : lookupA st.browser_time today with
  | none =>
      have h1 : btCounts (setA st.browser_time today []) today d =
          btCounts st.browser_time today d := by
        unfold btCounts
        rw [lookupA_setA_self, h0]
        simp [lookupA]
      simp only [log_browser_activity, h0, Option.isNone_none, if_true]
      rw [foldl_logEntry_btCounts]
      simp only [h1]
  | some m =>
      simp only [log_browser_activity, h0, Option.isNone_some,
        Bool.false_eq_true, if_false]
      rw [foldl_logEntry_btCounts]

/-- Claim C1 counterexample: on `["a","a","a","a"]` with `maxIdle = 2` the
code returns 2, not the 1 the spec's trace predicts, because `last_key`
starts as `None` and the comparison at index 1 therefore resets the run
length to 1. -/
theorem count_valid_keystrokes_four_as_ne_one :
    count_valid_keystrokes ["a", "a", "a", "a"] 2 = 2 ∧
    ¬ count_valid_keystrokes ["a", "a", "a", "a"] 2 = 1 := by decide

/-- Claim C1 (amended): `countValidKeystrokes` returns 2 on `["a","a","a"]`
with `maxIdle = 20` and 2 (not 1) on `["a","a","a","a"]` with `maxIdle = 2`
(run lengths at indices 1..3 are 1,2,3 since `last_key` starts as `None`),
and the walk starts at index 1: the key at index 0 is never examined, so
replacing it never changes the result. -/
theorem count_valid_keystrokes_vectors :
    count_valid_keystrokes ["a", "a", "a"] 20 = 2 ∧
    count_valid_keystrokes ["a", "a", "a", "a"] 2 = 2 ∧
    ∀ (k k' : String) (keys : List String) (m : Nat),
      count_valid_keystrokes (k :: keys) m =
        count_valid_keystrokes (k' :: keys) m :=
  ⟨by decide, by decide, fun _ _ _ _ => rfl⟩

/-- Claim C2 counterexample: raw idle readings `[0,0,400,450,0]` against
threshold 300 produce accumulator values `[0,0,400,450,450]`, not the
spec's `[0,0,100,150,150]`: when the first at-threshold reading arrives,
`current_logged_time` is 0, so the full raw duration is added. -/
theorem check_idle_spec_vector_false :
    check_idle_returns ⟨300, 0, 0⟩ [0, 0, 400, 450, 0] ≠
      [0, 0, 100, 150, 150] ∧
    check_idle_returns ⟨300, 0, 0⟩ [0, 0, 400, 450, 0] =
      [0, 0, 400, 450, 450] := by decide

/-- Claim C2 (amended): readings `[0,0,400,450,0]` with threshold 300
yield accumulator values `[0,0,400,450,450]`: a below-threshold tick
contributes 0, and an at-or-above-threshold tick adds exactly the delta
`raw - current_logged_time` (the full raw duration on the first such tick,
since the logged mark was reset to 0 while active). -/
theorem check_idle_accumulator_behavior (st : IdleTimeLogger) (r : Int) :
    check_idle_returns ⟨300, 0, 0⟩ [0, 0, 400, 450, 0] =
      [0, 0, 400, 450, 450] ∧
    (r < st.idle_threshold →
      (check_idle st r).total_idle_time = st.total_idle_time) ∧
    (st.idle_threshold ≤ r →
      (check_idle st r).total_idle_time =
        st.total_idle_time + (r - st.current_logged_time)) := by
  refine ⟨by decide, fun h => ?_, fun h => ?_⟩
  · simp [check_idle, not_le.mpr h]
  · simp [check_idle, h]

/-- Claim C2 witness: the two conditional parts of
`check_idle_accumulator_behavior` at concrete inputs. -/
theorem check_idle_accumulator_behavior_witness :
    (check_idle ⟨300, 7, 0⟩ 2).total_idle_time = 7 ∧
    (check_idle ⟨300, 7, 5⟩ 400).total_idle_time = 7 + (400 - 5) :=
  ⟨(check_idle_accumulator_behavior ⟨300, 7, 0⟩ 2).2.1 (by decide),
   (check_idle_accumulator_behavior ⟨300, 7, 5⟩ 400).2.2 (by decide)⟩

/-- Claim C5 counterexample: an absent persistence file is a propagated
`FileNotFoundError` (only `json.JSONDecodeError` has a handler, and it
re-raises), not an initialization to the empty store. -/
theorem load_logs_absent_is_fatal :
    load_logs FileState.absent = LoadResult.fatal ∧
    LoadResult.fatal ≠ LoadResult.ok emptyLogs false := by decide

/-- Claim C5 (amended): an absent file is a fatal startup error; a file of
10 or fewer lines is reinitialized to the empty store (with the `loaded`
flag left off); a file that passes the size check but fails to parse is
fatal; a parsing file that passes the size check loads as-is. -/
theorem load_logs_behavior (n : Nat) (logs : LogStore) (p : Option LogStore) :
    load_logs FileState.absent = LoadResult.fatal ∧
    (n ≤ 10 → load_logs (FileState.present n p) = LoadResult.ok emptyLogs false) ∧
    (10 < n → load_logs (FileState.present n none) = LoadResult.fatal) ∧
    (10 < n →
      load_logs (FileState.present n (some logs)) = LoadResult.ok logs true) := by
  refine ⟨rfl, fun h => ?_, fun h => ?_, fun h => ?_⟩
  · simp [load_logs, Nat.not_lt.mpr h]
  · simp [load_logs, h]
  · simp [load_logs, h]

/-- Claim C5 witness: `load_logs_behavior` at concrete line counts. -/
theorem load_logs_behavior_witness :
    load_logs (FileState.present 3 none) = LoadResult.ok emptyLogs false ∧
    load_logs (FileState.present 12 none) = LoadResult.fatal ∧
    load_logs (FileState.present 12 (some emptyLogs)) =
      LoadResult.ok emptyLogs true :=
  ⟨(load_logs_behavior 3 emptyLogs none).2.1 (by decide),
   (load_logs_behavior 12 emptyLogs none).2.2.1 (by decide),
   (load_logs_behavior 12 emptyLogs none).2.2.2 (by decide)⟩

/-- Claim C6: a non-200 verify response resets the store to
`{emp_id: -1, day_logs: {}, summary: {}}`; a 200 response with a different
`emp_id` resets the store to empty with the new id in the same step; a 200
response with the stored `emp_id` leaves the store unchanged. -/
theorem verify_identity_reset (st : LogStore) (status : Nat) (eid : Int) :
    (status ≠ 200 →
      verify_change_in_user st status eid =
        { emp_id := -1, day_logs := [], summary := [] }) ∧
    (status = 200 → eid ≠ st.emp_id →
      verify_change_in_user st status eid =
        { emp_id := eid, day_logs := [], summary := [] }) ∧
    (status = 200 → eid = st.emp_id →
      verify_change_in_user st status eid = st) := by
  refine ⟨fun h => ?_, fun h h' => ?_, fun h h' => ?_⟩
  · simp [verify_change_in_user, h, reset_logs]
  · simp [verify_change_in_user, h, h', reset_logs]
  · simp [verify_change_in_user, h, h']

/-- Claim C6 witness: the three verify outcomes at concrete inputs. -/
theorem verify_identity_reset_witness :
    verify_change_in_user { emp_id := 5, day_logs := [], summary := [] } 404 7 =
      { emp_id := -1, day_logs := [], summary := [] } ∧
    verify_change_in_user { emp_id := 5, day_logs := [], summary := [] } 200 7 =
      { emp_id := 7, day_logs := [], summary := [] } ∧
    verify_change_in_user { emp_id := 5, day_logs := [], summary := [] } 200 5 =
      { emp_id := 5, day_logs := [], summary := [] } :=
  ⟨(verify_identity_reset _ 404 7).1 (by decide),
   (verify_identity_reset _ 200 7).2.1 rfl (by decide),
   (verify_identity_reset _ 200 5).2.2 rfl rfl⟩

/-- Claim C8: whenever today's record has (truthy) application activity,
the transmitted payload is exactly `{uuid, date, app_details, idle_time}`
where each `app_details` entry keeps only `total_key_strokes`; raw `keys`
and all `browser_activity` detail are absent from the payload by
construction of `MetricsPayload` and `AppDetail`. -/
theorem save_logs_payload_filtered (uuid today : String) (logs : LogStore)
    (r : ActivityRecord) (hr : lookupA logs.day_logs today = some r)
    (hne : r.application_activity ≠ []) :
    build_metrics_payload uuid today logs =
      some
        { uuid := uuid, date := today,
          app_details := r.application_activity.map
            (fun p => (p.1, { total_key_strokes := p.2.total_key_strokes })),
          idle_time := r.idle_time } := by
  simp [build_metrics_payload, hr, hne]

/-- Claim C8 witness: the filtered payload of a store whose today-record
has an application entry with a populated `keys` array. -/
theorem save_logs_payload_filtered_witness :
    build_metrics_payload "u" "d"
        { emp_id := 1,
          day_logs := [("d",
            { browser_activity :=
                [("site", { time_spent := 4, visits := 4,
                            keys := ["x"], total_key_strokes := 0 })],
              application_activity :=
                [("app", { time_spent := 3, keys := ["a", "b"],
                           total_key_strokes := 1 })],
              idle_time := 9 })],
          summary := [] } =
      some
        { uuid := "u", date := "d",
          app_details := [("app", { total_key_strokes := 1 })],
          idle_time := 9 } :=
  save_logs_payload_filtered "u" "d" _
    { browser_activity :=
        [("site", { time_spent := 4, visits := 4,
                    keys := ["x"], total_key_strokes := 0 })],
      application_activity :=
        [("app", { time_spent := 3, keys := ["a", "b"],
                   total_key_strokes := 1 })],
      idle_time := 9 } (by decide) (by decide)

/-- Claim C10: when the store loaded from disk (`loaded = true` from a
successful `load_logs`) holds a record for today, the idle accumulator is
initialized to that record's stored `idle_time` instead of 0. -/
theorem restart_restores_idle (fs : FileState) (logs : LogStore)
    (today : String) (r : ActivityRecord)
    (_hload : load_logs fs = LoadResult.ok logs true)
    (h : lookupA logs.day_logs today = some r) :
    tracker_init_idle_total true logs today = r.idle_time := by
  simp [tracker_init_idle_total, h]

/-- Claim C10 witness: a store reloaded from a 12-line file with a record
for today seeds the idle accumulator with the stored 42 seconds. -/
theorem restart_restores_idle_witness :
    tracker_init_idle_total true
        { emp_id := 1,
          day_logs := [("d",
            { browser_activity := [], application_activity := [],
              idle_time := 42 })],
          summary := [] } "d" = 42 :=
  restart_restores_idle
    (FileState.present 12 (some
      { emp_id := 1,
        day_logs := [("d",
          { browser_activity := [], application_activity := [],
            idle_time := 42 })],
        summary := [] })) _ "d"
    { browser_activity := [], application_activity := [], idle_time := 42 }
    rfl (by decide)

/-- Claim C3 counterexample: against the unchanged one-entry history,
calling `log_browser_activity` twice yields `time_spent = visits = 2` for
the entry's domain while a single call yields `(1, 1)`: the sampler
accumulates into `browser_time` instead of recomputing it. -/
theorem log_browser_activity_not_idempotent :
    btCounts (log_browser_activity
        (log_browser_activity ⟨[], []⟩
          [⟨"2025-01-01", "http://x.com/page"⟩] "2025-01-01")
        [⟨"2025-01-01", "http://x.com/page"⟩]
        "2025-01-01").browser_time "2025-01-01" "x.com" = (2, 2) ∧
    btCounts (log_browser_activity ⟨[], []⟩
        [⟨"2025-01-01", "http://x.com/page"⟩]
        "2025-01-01").browser_time "2025-01-01" "x.com" = (1, 1) ∧
    ((2, 2) : Nat × Nat) ≠ (1, 1) := by decide

/-- Claim C3 (amended): each call of `log_browser_activity` adds exactly
one unit of `time_spent` and one of `visits` per history entry dated
today for the entry's domain, on top of the counts already accumulated;
the per-date, per-domain counts are therefore a function of the current
snapshot and the previously accumulated state (an accumulation, not an
idempotent recompute). -/
theorem browser_sampler_counts_accumulate (st : BrowserLogger)
    (history : List HistoryEntry) (today d : String) :
    btCounts (log_browser_activity st history today).browser_time today d =
      ((btCounts st.browser_time today d).1 + countMatches history today d,
       (btCounts st.browser_time today d).2 + countMatches history today d) :=
  log_browser_activity_btCounts st history today d

/-- Claim C4 counterexample: with today's record already holding
application "X" at `time_spent = 1` and the window sampler reporting "X"
as foreground for 5 ticks, `aggregate_logs` leaves the record's
`time_spent` at 1: `setdefault` never updates an existing entry. -/
theorem aggregate_existing_app_not_updated :
    (lookupA (todayRec (aggregate_logs "d"
        { logs :=
            { emp_id := 1,
              day_logs := [("d",
                { browser_activity := [],
                  application_activity :=
                    [("X", { time_spent := 1, keys := [],
                             total_key_strokes := 0 })],
                  idle_time := 0 })],
              summary := [] },
          browser_time := [], app_time := [("X", 5)], key_data := [],
          total_idle_time := 0 }) "d").application_activity "X").map
        AppCtx.time_spent = some 1 ∧
    (some 1 : Option Nat) ≠ some 5 ∧ (some 1 : Option Nat) ≠ some 2 := by
  decide

/-- Claim C4 (amended): `aggregate_logs` copies the window sampler's
accumulated per-app tick count into `application_activity[app].time_spent`
only when the entry is newly created; an application whose entry already
exists in today's record keeps its previous `time_spent` untouched (the
per-tick increments accumulate only in the sampler's own `app_time`). -/
theorem aggregate_app_time_spent (st : TrackerState) (today app : String) :
    (∀ ac : AppCtx,
      lookupA (todayRec st today).application_activity app = some ac →
      (lookupA (todayRec (aggregate_logs today st) today).application_activity
          app).map AppCtx.time_spent = some ac.time_spent) ∧
    (∀ n : Nat,
      lookupA (todayRec st today).application_activity app = none →
      lookupA st.app_time app = some n →
      (lookupA (todayRec (aggregate_logs today st) today).application_activity
          app).map AppCtx.time_spent = some n) := by
  constructor
  · intro ac hac
    rw [todayRec_aggregate]
    dsimp only
    rw [drainAll_app_time]
    rw [seedApps_lookup_of_some _ _ _ ac]
    · rfl
    · rw [seedBrowser_app]
      exact hac
  · intro n habs hn
    rw [todayRec_aggregate]
    dsimp only
    rw [drainAll_app_time]
    rw [seedApps_seeds _ _ _ n]
    · rfl
    · rw [seedBrowser_app]
      exact habs
    · exact hn

/-- Claim C4 witness: both parts of `aggregate_app_time_spent` at concrete
states: an existing entry stays at `time_spent = 1` despite a sampler
count of 5, and a fresh entry is seeded with the sampler count 5. -/
theorem aggregate_app_time_spent_witness :
    ((lookupA (todayRec (aggregate_logs "d"
        { logs :=
            { emp_id := 1,
              day_logs := [("d",
                { browser_activity := [],
                  application_activity :=
                    [("X", { time_spent := 1, keys := [],
                             total_key_strokes := 0 })],
                  idle_time := 0 })],
              summary := [] },
          browser_time := [], app_time := [("X", 5)], key_data := [],
          total_idle_time := 0 }) "d").application_activity "X").map
        AppCtx.time_spent = some 1) ∧
    ((lookupA (todayRec (aggregate_logs "d"
        { logs := { emp_id := 1, day_logs := [], summary := [] },
          browser_time := [], app_time := [("Y", 5)], key_data := [],
          total_idle_time := 0 }) "d").application_activity "Y").map
        AppCtx.time_spent = some 5) :=
  ⟨(aggregate_app_time_spent _ "d" "X").1
      { time_spent := 1, keys := [], total_key_strokes := 0 } (by decide),
   (aggregate_app_time_spent _ "d" "Y").2 5 (by decide) (by decide)⟩

/-- Claim C7: with unchanged sampler state, running `aggregate_logs` a
second time in the same tick leaves the `(time_spent, visits)` of every
domain of today's `browser_activity` exactly as the first run left them:
existing entries are never overwritten by the sampler's totals and no new
domain appears, so nothing is double-counted. -/
theorem aggregate_twice_browser_counts (st : TrackerState) (today d : String) :
    (lookupA (todayRec (aggregate_logs today (aggregate_logs today st))
        today).browser_activity d).map (fun b => (b.time_spent, b.visits)) =
      (lookupA (todayRec (aggregate_logs today st) today).browser_activity
        d).map (fun b => (b.time_spent, b.visits)) := by
  have hpres : ∀ p ∈ (lookupA st.browser_time today).getD [],
      (lookupA (todayRec (aggregate_logs today st) today).browser_activity
        p.1).isSome := by
    intro p hp
    rw [todayRec_aggregate]
    dsimp only
    rw [isSome_of_map_eq (drainAll_browser_counts _ _ _), seedApps_browser]
    exact seedBrowser_isSome_of_mem _ _ _ (List.mem_map_of_mem _ hp)
  rw [todayRec_aggregate today (aggregate_logs today st)]
  dsimp only
  rw [aggregate_browser_time, aggregate_app_time, drainAll_browser_counts,
    seedApps_browser, seedBrowser_id_of_present _ _ hpres]

/-- Claim C9: `aggregate_logs` preserves the derived-value invariant on
today's record: if every context entry's `total_key_strokes` equals the
noise filter of its `keys` before the tick (as is the case for the empty
initial record), the same holds after the tick, for both
`browser_activity` and `application_activity`. -/
theorem aggregate_preserves_recInvariant (st : TrackerState) (today : String)
    (h : recInvariant (todayRec st today)) :
    recInvariant (todayRec (aggregate_logs today st) today) := by
  rw [todayRec_aggregate]
  exact drainAll_invariant _ _
    (seedApps_invariant _ _ (seedBrowser_invariant _ _ h))

/-- Claim C9 witness: `aggregate_preserves_recInvariant` on a state with
pending keys for an existing application context; the invariant holds
before and after the tick. -/
theorem aggregate_preserves_recInvariant_witness :
    recInvariant (todayRec
      { logs :=
          { emp_id := 1,
            day_logs := [("d",
              { browser_activity := [],
                application_activity :=
                  [("X", { time_spent := 1, keys := ["a", "b"],
                           total_key_strokes := 1 })],
                idle_time := 0 })],
            summary := [] },
        browser_time := [("d", [("x.com", { time_spent := 2, visits := 2 })])],
        app_time := [("X", 5), ("Y", 1)],
        key_data := [("X", ["b", "b"]), ("gone", ["z"])],
        total_idle_time := 3 } "d") ∧
    recInvariant (todayRec (aggregate_logs "d"
      { logs :=
          { emp_id := 1,
            day_logs := [("d",
              { browser_activity := [],
                application_activity :=
                  [("X", { time_spent := 1, keys := ["a", "b"],
                           total_key_strokes := 1 })],
                idle_time := 0 })],
            summary := [] },
        browser_time := [("d", [("x.com", { time_spent := 2, visits := 2 })])],
        app_time := [("X", 5), ("Y", 1)],
        key_data := [("X", ["b", "b"]), ("gone", ["z"])],
        total_idle_time := 3 }) "d") :=
  ⟨by decide, aggregate_preserves_recInvariant _ "d" (by decide)⟩

end KeyLogger

